import Mathlib

/-
Verification of the selection/configuration resolution engine of
cargo-show-asm (src/opts.rs): Focus construction and artifact matching,
Syntax-derived compiler facts, manifest-path / target-dir / target-cpu /
verbosity resolution.
-/

namespace CargoShowAsm

/-- A filesystem path: whether it is absolute, plus its component list. -/
structure FPath where
  absolute : Bool
  components : List String
deriving DecidableEq, Repr

/-- Path join as Rust PathBuf::join behaves: an absolute right-hand side
replaces the left-hand side, a relative one is appended. -/
def FPath.join (p q : FPath) : FPath :=
  if q.absolute then q else ⟨p.absolute, p.components ++ q.components⟩

/-- The conventional manifest file name, Cargo.toml, as a relative path. -/
def cargoTomlPath : FPath := ⟨false, ["Cargo.toml"]⟩

/-- Abstract filesystem for canonicalization. canonicalize returns none
exactly when the path does not exist (cannot be resolved); a successfully
canonicalized path is always absolute, which the proof field records. -/
structure FileSystem where
  canonicalize : FPath → Option FPath
  canon_absolute : ∀ p q, canonicalize p = some q → q.absolute = true

/-- A path exists on the filesystem iff it canonicalizes successfully. -/
def FileSystem.pathExists (fs : FileSystem) (p : FPath) : Bool :=
  (fs.canonicalize p).isSome

/-- Embedding of manifest_path from src/opts.rs: an explicit absolute path
is used verbatim; an explicit relative path is joined to the current
working directory and canonicalized (failing when that path does not
exist); when no path is given the fallback is cwd joined with Cargo.toml.
The result none is a resolution failure. -/
def manifest_path (fs : FileSystem) (cwd : FPath) (input : Option FPath) :
    Option FPath :=
  match input with
  | some p => if p.absolute then some p else fs.canonicalize (cwd.join p)
  | none => some (cwd.join cargoTomlPath)

/-- Abstract filesystem for target-directory resolution: is_dir tells
whether the path is an existing directory, create_dir whether creating it
succeeds, and canonicalize resolves the path right after creation (none
is a canonicalization failure). -/
structure DirFileSystem where
  is_dir : FPath → Bool
  create_dir : FPath → Bool
  canonicalize : FPath → Option FPath

/-- Embedding of check_target_dir from src/opts.rs: an existing directory
is returned exactly as supplied; otherwise the directory is created and
the canonicalized path is returned; a creation or canonicalization
failure fails the resolution (none). -/
def check_target_dir (fs : DirFileSystem) (path : FPath) : Option FPath :=
  if fs.is_dir path then some path
  else if fs.create_dir path then fs.canonicalize path
  else none

/-- The optional target-dir field of Options: an absent input (neither
flag nor environment variable) stays absent, a present one goes through
check_target_dir. -/
def resolve_target_dir (fs : DirFileSystem) (input : Option FPath) :
    Option (Option FPath) :=
  match input with
  | none => some none
  | some p => (check_target_dir fs p).map some

/-- A cargo_metadata target descriptor: its kind list and its name. -/
structure Target where
  kind : List String
  name : String
deriving DecidableEq, Repr

/-- A cargo_metadata build artifact, carrying its target descriptor. -/
structure Artifact where
  target : Target
deriving DecidableEq, Repr

/-- The artifact the build produces for a given target. -/
def artifactOf (t : Target) : Artifact := ⟨t⟩

/-- The Focus type from src/opts.rs: which kind of build target, and
optionally which one by name. -/
inductive Focus where
  | Lib
  | Test (name : String)
  | Bench (name : String)
  | Example (name : String)
  | Bin (name : String)
deriving DecidableEq, Repr

/-- Embedding of Focus::as_parts. -/
def Focus.as_parts : Focus → String × Option String
  | .Lib => ("lib", none)
  | .Test name => ("test", some name)
  | .Bench name => ("bench", some name)
  | .Example name => ("example", some name)
  | .Bin name => ("bin", some name)

/-- Embedding of Focus::as_cargo_args: one dash-dash-kind token, then the
name when the variant carries one. -/
def Focus.as_cargo_args (f : Focus) : List String :=
  ("--" ++ f.as_parts.1) ::
    (match f.as_parts.2 with
     | none => []
     | some n => [n])

/-- Embedding of Focus::matches_artifact: the artifact target kind list
must equal the singleton of the focus kind string, and the target name
must agree whenever the focus carries a name. -/
def Focus.matches_artifact (f : Focus) (a : Artifact) : Bool :=
  (a.target.kind == [f.as_parts.1]) &&
    (match f.as_parts.2 with
     | none => true
     | some n => a.target.name == n)

/-- The kind string of a focus, stated directly from the spec wording,
for comparison against the source embedding. -/
def Focus.specKind : Focus → String
  | .Lib => "lib"
  | .Test _ => "test"
  | .Bench _ => "bench"
  | .Example _ => "example"
  | .Bin _ => "bin"

/-- The required name a focus carries, stated directly from the spec
wording: every variant except Lib carries one. -/
def Focus.specName : Focus → Option String
  | .Lib => none
  | .Test n => some n
  | .Bench n => some n
  | .Example n => some n
  | .Bin n => some n

/-- The error produced when Focus inference meets an unrecognized target
kind list. -/
inductive OptsError where
  | unknownTargetKind (kind : List String)
deriving DecidableEq, Repr

/-- Embedding of the TryFrom conversion from a cargo_metadata Target to
Focus in src/opts.rs: the target is classified by the first element of
its kind list; an unrecognized (or missing) first kind is an error. -/
def Focus.tryFrom (t : Target) : Except OptsError Focus :=
  match t.kind.head? with
  | none => .error (.unknownTargetKind t.kind)
  | some k =>
    if k = "lib" then .ok .Lib
    else if k = "test" then .ok (.Test t.name)
    else if k = "bench" then .ok (.Bench t.name)
    else if k = "example" then .ok (.Example t.name)
    else if k = "bin" then .ok (.Bin t.name)
    else .error (.unknownTargetKind t.kind)

/-- The Syntax type from src/opts.rs. -/
inductive Syntax where
  | Intel
  | Att
  | Llvm
  | Mir
deriving DecidableEq, Repr

/-- Embedding of Syntax::format: the compiler flag selecting the assembly
dialect, absent for Llvm and Mir. -/
def Syntax.format : Syntax → Option String
  | .Intel => some "llvm-args=-x86-asm-syntax=intel"
  | .Att => some "llvm-args=-x86-asm-syntax=att"
  | .Mir => none
  | .Llvm => none

/-- Embedding of Syntax::emit: the emission kind requested from the
compiler. -/
def Syntax.emit : Syntax → String
  | .Intel => "asm"
  | .Att => "asm"
  | .Llvm => "llvm-ir"
  | .Mir => "mir"

/-- Embedding of Syntax::ext: the file extension for the emission kind. -/
def Syntax.ext : Syntax → String
  | .Intel => "s"
  | .Att => "s"
  | .Llvm => "ll"
  | .Mir => "mir"

/-
Command-line token semantics for the bpaf combinators used by the
verbosity and target_cpu parsers in src/opts.rs. A parser consumes its
flag occurrences from anywhere in the token list (bpaf flags are not
positional); at top level bpaf rejects an invocation whose tokens are not
all consumed.
-/

/-- Consume the first token satisfying isFlag from anywhere in the list;
none when no token matches. Models a bpaf req_flag with the given
name set. -/
def consumeFlag (isFlag : String → Bool) : List String → Option (List String)
  | [] => none
  | a :: rest =>
    if isFlag a then some rest
    else (consumeFlag isFlag rest).map (a :: ·)

/-- Consume a flag together with the value token that follows it, from
anywhere in the list. Models a bpaf argument. -/
def consumeArg (name : String) : List String → Option (String × List String)
  | [] => none
  | a :: rest =>
    if a = name then
      match rest with
      | [] => none
      | v :: rest2 => some (v, rest2)
    else (consumeArg name rest).map (fun p => (p.1, a :: p.2))

/-- Repeated flag consumption (the bpaf many combinator), fuelled; the
input length is always enough fuel because each step consumes a token. -/
def manyFlagFuel (isFlag : String → Bool) : Nat → List String → Nat × List String
  | 0, args => (0, args)
  | fuel + 1, args =>
    match consumeFlag isFlag args with
    | none => (0, args)
    | some rest =>
      let p := manyFlagFuel isFlag fuel rest
      (p.1 + 1, p.2)

/-- The many combinator over a flag: consume every occurrence and count
them. -/
def manyFlag (isFlag : String → Bool) (args : List String) : Nat × List String :=
  manyFlagFuel isFlag args.length args

/-- Embedding of verbosity from src/opts.rs: req_flag on the short or
long verbosity flag, many, mapped to the length of the collected list. -/
def verbosity (args : List String) : Nat :=
  (manyFlag (fun a => a == "-v" || a == "--verbose") args).1

/-- The native half of target_cpu from src/opts.rs: a req_flag producing
the literal string native. -/
def parseNative (args : List String) : Option (String × List String) :=
  (consumeFlag (fun a => a == "--native") args).map (fun rest => ("native", rest))

/-- The explicit-CPU half of target_cpu from src/opts.rs: the target-cpu
flag with a CPU name argument. -/
def parseTargetCpuArg (args : List String) : Option (String × List String) :=
  consumeArg "--target-cpu" args

/-- The alternative of the two halves, as the construct combinator builds
it: native is tried first. -/
def parseTargetCpuAlt (args : List String) : Option (String × List String) :=
  match parseNative args with
  | some r => some r
  | none => parseTargetCpuArg args

/-- Embedding of target_cpu from src/opts.rs composed with the bpaf
optional combinator and the top-level requirement that every token is
consumed; none is a parse failure, so an invocation supplying both forms
is rejected. -/
def target_cpu (args : List String) : Option (Option String) :=
  match parseTargetCpuAlt args with
  | some (v, rest) => if rest.isEmpty then some (some v) else none
  | none => if args.isEmpty then some none else none

/-- A filesystem on which canonicalization always fails: no path exists. -/
def fsEmpty : FileSystem where
  canonicalize := fun _ => none
  canon_absolute := by intro p q h; simp at h

/-- A filesystem on which canonicalization marks the path absolute and
keeps its components. -/
def fsAbs : FileSystem where
  canonicalize := fun p => some ⟨true, p.components⟩
  canon_absolute := by intro p q h; simp at h; rw [← h]

/-- A directory filesystem where nothing is a directory yet, creation
always succeeds, and canonicalization marks the path absolute. -/
def dirFsFresh : DirFileSystem where
  is_dir := fun _ => false
  create_dir := fun _ => true
  canonicalize := fun p => some ⟨true, p.components⟩

/-- An absolute manifest path that exists on no filesystem modelled by
fsEmpty. -/
def ghostManifest : FPath := ⟨true, ["ghost", "Cargo.toml"]⟩

/-- C1: Focus::matches_artifact returns true iff the artifact's target
kind list equals exactly the singleton of the focus's kind string, and,
when the focus carries a required name (every variant except Lib), the
artifact's target name equals that name; Lib matches a lib-kind artifact
regardless of name. -/
theorem c1_matches_artifact_spec (f : Focus) (a : Artifact) :
    f.matches_artifact a = true ↔
      (a.target.kind = [f.specKind] ∧
        ∀ n, f.specName = some n → a.target.name = n) := by
  cases f <;>
    simp [Focus.matches_artifact, Focus.as_parts, Focus.specKind,
      Focus.specName]

/-- C2: Focus::try_from maps first kind lib to Lib with no name, and
first kinds test, bench, example, bin to the corresponding variant
carrying the target's declared name; any other kind string fails with an
unknown-target-kind error rather than producing a Focus. -/
theorem c2_tryFrom_spec (t : Target) :
    (t.kind.head? = some "lib" → Focus.tryFrom t = .ok .Lib) ∧
    (t.kind.head? = some "test" → Focus.tryFrom t = .ok (.Test t.name)) ∧
    (t.kind.head? = some "bench" → Focus.tryFrom t = .ok (.Bench t.name)) ∧
    (t.kind.head? = some "example" →
      Focus.tryFrom t = .ok (.Example t.name)) ∧
    (t.kind.head? = some "bin" → Focus.tryFrom t = .ok (.Bin t.name)) ∧
    (∀ k, t.kind.head? = some k →
      k ∉ (["lib", "test", "bench", "example", "bin"] : List String) →
      Focus.tryFrom t = .error (.unknownTargetKind t.kind)) := by
  refine ⟨?_, ?_, ?_, ?_, ?_, ?_⟩
  · intro h; simp [Focus.tryFrom, h]
  · intro h; simp [Focus.tryFrom, h]
  · intro h; simp [Focus.tryFrom, h]
  · intro h; simp [Focus.tryFrom, h]
  · intro h; simp [Focus.tryFrom, h]
  · intro k h hk
    simp only [List.mem_cons, List.not_mem_nil, or_false] at hk
    push_neg at hk
    obtain ⟨h1, h2, h3, h4, h5⟩ := hk
    simp [Focus.tryFrom, h, h1, h2, h3, h4, h5]

/-- C2 witness: the theorem applied to a test target named t1 and to a
plugin target. -/
theorem c2_tryFrom_spec_witness :
    Focus.tryFrom ⟨["test"], "t1"⟩ = .ok (.Test "t1") ∧
    Focus.tryFrom ⟨["plugin"], "x"⟩ =
      .error (.unknownTargetKind ["plugin"]) :=
  ⟨(c2_tryFrom_spec ⟨["test"], "t1"⟩).2.1 (by decide),
   (c2_tryFrom_spec ⟨["plugin"], "x"⟩).2.2.2.2.2 "plugin" (by decide)
     (by decide)⟩

/-- C6: the Syntax derived facts are total functions of the variant;
Intel and Att share the emission kind asm and the extension and differ
only in the compiler flag; Llvm and Mir have no compiler flag and have
emission kinds llvm-ir and mir. -/
theorem c6_syntax_mapping :
    Syntax.emit .Intel = "asm" ∧ Syntax.emit .Att = "asm" ∧
    Syntax.ext .Intel = Syntax.ext .Att ∧
    Syntax.format .Intel ≠ Syntax.format .Att ∧
    (Syntax.format .Intel).isSome = true ∧
    (Syntax.format .Att).isSome = true ∧
    Syntax.format .Llvm = none ∧ Syntax.format .Mir = none ∧
    Syntax.emit .Llvm = "llvm-ir" ∧ Syntax.emit .Mir = "mir" := by
  decide

/-- C8: for every Focus, as_cargo_args is exactly the dash-dash-kind
token followed by the name when the variant carries one; for Lib it is
the single token dash-dash-lib. -/
theorem c8_as_cargo_args_spec (n : String) :
    Focus.as_cargo_args .Lib = ["--lib"] ∧
    Focus.as_cargo_args (.Test n) = ["--test", n] ∧
    Focus.as_cargo_args (.Bench n) = ["--bench", n] ∧
    Focus.as_cargo_args (.Example n) = ["--example", n] ∧
    Focus.as_cargo_args (.Bin n) = ["--bin", n] := by
  refine ⟨rfl, rfl, rfl, rfl, rfl⟩

/-- C7: for a target whose kind list is exactly one recognized kind,
Focus::try_from succeeds and the resulting Focus matches the artifact
carrying that same target; for a target whose kind list has more than
one element, the Focus obtained from it never matches the target's own
artifact, because matching compares against a singleton kind list. -/
theorem c7_tryFrom_matches_roundtrip (t : Target) :
    (∀ k, t.kind = [k] →
      k ∈ (["lib", "test", "bench", "example", "bin"] : List String) →
      ∃ f, Focus.tryFrom t = .ok f ∧
        f.matches_artifact (artifactOf t) = true) ∧
    (∀ f, 1 < t.kind.length → Focus.tryFrom t = .ok f →
      f.matches_artifact (artifactOf t) = false) := by
  constructor
  · intro k hk hmem
    simp only [List.mem_cons, List.not_mem_nil, or_false] at hmem
    rcases hmem with h | h | h | h | h
    · subst h
      exact ⟨.Lib, by simp [Focus.tryFrom, hk], by
        simp [Focus.matches_artifact, Focus.as_parts, artifactOf, hk]⟩
    · subst h
      exact ⟨.Test t.name, by simp [Focus.tryFrom, hk], by
        simp [Focus.matches_artifact, Focus.as_parts, artifactOf, hk]⟩
    · subst h
      exact ⟨.Bench t.name, by simp [Focus.tryFrom, hk], by
        simp [Focus.matches_artifact, Focus.as_parts, artifactOf, hk]⟩
    · subst h
      exact ⟨.Example t.name, by simp [Focus.tryFrom, hk], by
        simp [Focus.matches_artifact, Focus.as_parts, artifactOf, hk]⟩
    · subst h
      exact ⟨.Bin t.name, by simp [Focus.tryFrom, hk], by
        simp [Focus.matches_artifact, Focus.as_parts, artifactOf, hk]⟩
  · intro f hlen _
    have hne : ∀ s : String, ¬ t.kind = [s] := by
      intro s h
      rw [h] at hlen
      simp at hlen
    cases f <;>
      simp [Focus.matches_artifact, Focus.as_parts, artifactOf, hne]

/-- C7 witness: the theorem applied to a bin target named foo, and to a
two-kind target. -/
theorem c7_tryFrom_matches_roundtrip_witness :
    (∃ f, Focus.tryFrom ⟨["bin"], "foo"⟩ = .ok f ∧
      f.matches_artifact (artifactOf ⟨["bin"], "foo"⟩) = true) ∧
    Focus.matches_artifact (.Bin "foo")
      (artifactOf ⟨["bin", "lib"], "foo"⟩) = false :=
  ⟨(c7_tryFrom_matches_roundtrip ⟨["bin"], "foo"⟩).1 "bin" rfl (by decide),
   (c7_tryFrom_matches_roundtrip ⟨["bin", "lib"], "foo"⟩).2 (.Bin "foo")
     (by decide) rfl⟩

/-- C3: manifest-path resolution uses an explicit absolute path verbatim,
canonicalizes cwd joined with an explicit relative path (failing when
that joined path does not exist), and falls back to cwd joined with
Cargo.toml when no path is given. -/
theorem c3_manifest_path_spec (fs : FileSystem) (cwd p : FPath) :
    (p.absolute = true → manifest_path fs cwd (some p) = some p) ∧
    (p.absolute = false →
      manifest_path fs cwd (some p) = fs.canonicalize (cwd.join p)) ∧
    (p.absolute = false → fs.pathExists (cwd.join p) = false →
      manifest_path fs cwd (some p) = none) ∧
    manifest_path fs cwd none = some (cwd.join cargoTomlPath) := by
  refine ⟨?_, ?_, ?_, rfl⟩
  · intro h; simp [manifest_path, h]
  · intro h; simp [manifest_path, h]
  · intro h hex
    simp only [FileSystem.pathExists] at hex
    cases hc : fs.canonicalize (cwd.join p) with
    | none => simp [manifest_path, h, hc]
    | some v => rw [hc] at hex; simp at hex

/-- C3 witness: the theorem applied on fsAbs with an absolute input, a
relative input, and no input; plus the failing relative case on fsEmpty
through the third clause. -/
theorem c3_manifest_path_spec_witness :
    manifest_path fsAbs ⟨true, ["w"]⟩ (some ⟨true, ["m", "Cargo.toml"]⟩) =
      some ⟨true, ["m", "Cargo.toml"]⟩ ∧
    manifest_path fsAbs ⟨true, ["w"]⟩ (some ⟨false, ["crate"]⟩) =
      fsAbs.canonicalize (FPath.join ⟨true, ["w"]⟩ ⟨false, ["crate"]⟩) ∧
    manifest_path fsEmpty ⟨true, ["w"]⟩ (some ⟨false, ["crate"]⟩) = none ∧
    manifest_path fsAbs ⟨true, ["w"]⟩ none =
      some (FPath.join ⟨true, ["w"]⟩ cargoTomlPath) :=
  ⟨(c3_manifest_path_spec fsAbs ⟨true, ["w"]⟩ ⟨true, ["m", "Cargo.toml"]⟩).1
      rfl,
   (c3_manifest_path_spec fsAbs ⟨true, ["w"]⟩ ⟨false, ["crate"]⟩).2.1 rfl,
   (c3_manifest_path_spec fsEmpty ⟨true, ["w"]⟩ ⟨false, ["crate"]⟩).2.2.1
      rfl (by decide),
   (c3_manifest_path_spec fsAbs ⟨true, ["w"]⟩ ⟨false, ["x"]⟩).2.2.2⟩

/-- C4 counterexample: on a filesystem where no path exists, an explicit
absolute manifest path is accepted verbatim, so construction succeeds
even though the stored manifest path does not exist, refuting the claim
that construction fails whenever the manifest path does not exist. -/
theorem c4_counterexample :
    manifest_path fsEmpty ⟨true, []⟩ (some ghostManifest) =
      some ghostManifest ∧
    fsEmpty.pathExists ghostManifest = false := by
  decide

/-- C4 amended: for every successfully resolved manifest path the stored
path is absolute (the working directory being absolute); existence is
only enforced for an explicit relative path, whose resolution fails when
the joined path does not exist; absolute and defaulted paths are stored
without an existence check. -/
theorem c4_manifest_invariant (fs : FileSystem) (cwd : FPath) :
    (∀ (input : Option FPath) (r : FPath), cwd.absolute = true →
      manifest_path fs cwd input = some r → r.absolute = true) ∧
    (∀ p : FPath, p.absolute = false →
      fs.pathExists (cwd.join p) = false →
      manifest_path fs cwd (some p) = none) := by
  constructor
  · intro input r hcwd h
    match input with
    | none =>
      simp only [manifest_path, Option.some.injEq] at h
      rw [← h]
      simp [FPath.join, cargoTomlPath, hcwd]
    | some p =>
      by_cases hp : p.absolute = true
      · simp only [manifest_path, hp, if_true, Option.some.injEq] at h
        rw [← h]; exact hp
      · simp only [manifest_path, hp] at h
        simp only [Bool.not_eq_true] at hp
        rw [if_neg (by simp [hp])] at h
        exact fs.canon_absolute _ _ h
  · intro p hp hex
    simp only [FileSystem.pathExists] at hex
    cases hc : fs.canonicalize (cwd.join p) with
    | none => simp [manifest_path, hp, hc]
    | some v => rw [hc] at hex; simp at hex

/-- C4 amended witness: absoluteness of the defaulted manifest path on
fsAbs, and failure of a relative nonexistent path on fsEmpty. -/
theorem c4_manifest_invariant_witness :
    FPath.absolute ⟨true, ["w", "Cargo.toml"]⟩ = true ∧
    manifest_path fsEmpty ⟨true, ["w"]⟩ (some ⟨false, ["crate"]⟩) = none :=
  ⟨(c4_manifest_invariant fsAbs ⟨true, ["w"]⟩).1 none
      ⟨true, ["w", "Cargo.toml"]⟩ rfl (by decide),
   (c4_manifest_invariant fsEmpty ⟨true, ["w"]⟩).2 ⟨false, ["crate"]⟩ rfl
      (by decide)⟩

/-- C5: target-directory resolution returns an existing directory as
supplied without canonicalization; a missing directory is created and
the result is its canonicalization; a creation or canonicalization
failure fails the resolution; an absent input stays absent. -/
theorem c5_target_dir_spec (fs : DirFileSystem) (p : FPath) :
    (fs.is_dir p = true → check_target_dir fs p = some p) ∧
    (fs.is_dir p = false → fs.create_dir p = true →
      check_target_dir fs p = fs.canonicalize p) ∧
    (fs.is_dir p = false → fs.create_dir p = false →
      check_target_dir fs p = none) ∧
    resolve_target_dir fs none = some none := by
  refine ⟨?_, ?_, ?_, rfl⟩
  · intro h; simp [check_target_dir, h]
  · intro h1 h2; simp [check_target_dir, h1, h2]
  · intro h1 h2; simp [check_target_dir, h1, h2]

/-- C5 witness: the theorem applied on dirFsFresh, where the directory is
missing and gets created then canonicalized, and the absent case. -/
theorem c5_target_dir_spec_witness :
    check_target_dir dirFsFresh ⟨false, ["t"]⟩ =
      dirFsFresh.canonicalize ⟨false, ["t"]⟩ ∧
    resolve_target_dir dirFsFresh none = some none :=
  ⟨(c5_target_dir_spec dirFsFresh ⟨false, ["t"]⟩).2.1 rfl rfl,
   (c5_target_dir_spec dirFsFresh ⟨false, ["t"]⟩).2.2.2⟩

theorem consumeFlag_none_count (isFlag : String → Bool) :
    ∀ args : List String, consumeFlag isFlag args = none →
      args.countP isFlag = 0 := by
  intro args
  induction args with
  | nil => intro _; rfl
  | cons a tl ih =>
    intro h
    simp only [consumeFlag] at h
    by_cases ha : isFlag a = true
    · simp [ha] at h
    · simp only [Bool.not_eq_true] at ha
      rw [if_neg (by simp [ha])] at h
      rw [Option.map_eq_none'] at h
      simp [List.countP_cons, ha, ih h]

theorem consumeFlag_some_count (isFlag : String → Bool) :
    ∀ args rest : List String, consumeFlag isFlag args = some rest →
      args.countP isFlag = rest.countP isFlag + 1 := by
  intro args
  induction args with
  | nil => intro rest h; simp [consumeFlag] at h
  | cons a tl ih =>
    intro rest h
    simp only [consumeFlag] at h
    by_cases ha : isFlag a = true
    · rw [if_pos ha] at h
      cases h
      simp [List.countP_cons, ha]
    · simp only [Bool.not_eq_true] at ha
      rw [if_neg (by simp [ha])] at h
      rw [Option.map_eq_some'] at h
      obtain ⟨r, hr, hrr⟩ := h
      subst hrr
      simp [List.countP_cons, ha, ih r hr]

theorem consumeFlag_length (isFlag : String → Bool) :
    ∀ args rest : List String, consumeFlag isFlag args = some rest →
      rest.length < args.length := by
  intro args
  induction args with
  | nil => intro rest h; simp [consumeFlag] at h
  | cons a tl ih =>
    intro rest h
    simp only [consumeFlag] at h
    by_cases ha : isFlag a = true
    · rw [if_pos ha] at h
      cases h
      simp
    · simp only [Bool.not_eq_true] at ha
      rw [if_neg (by simp [ha])] at h
      rw [Option.map_eq_some'] at h
      obtain ⟨r, hr, hrr⟩ := h
      subst hrr
      have := ih r hr
      simp only [List.length_cons]
      omega

theorem manyFlagFuel_count (isFlag : String → Bool) :
    ∀ (fuel : Nat) (args : List String), args.length ≤ fuel →
      (manyFlagFuel isFlag fuel args).1 = args.countP isFlag := by
  intro fuel
  induction fuel with
  | zero =>
    intro args h
    have : args = [] := List.length_eq_zero.mp (Nat.le_zero.mp h)
    subst this
    rfl
  | succ n ih =>
    intro args h
    simp only [manyFlagFuel]
    cases hc : consumeFlag isFlag args with
    | none => exact (consumeFlag_none_count isFlag args hc).symm
    | some rest =>
      have hlt := consumeFlag_length isFlag args rest hc
      have hle : rest.length ≤ n := by omega
      simp only []
      rw [ih rest hle, consumeFlag_some_count isFlag args rest hc]

/-- C10: for every command line, the resolved verbosity level equals the
number of occurrences of the verbosity flag (short or long form), and is
zero when the flag never occurs. -/
theorem c10_verbosity_count (args : List String) :
    verbosity args = args.countP (fun a => a == "-v" || a == "--verbose") ∧
    ("-v" ∉ args → "--verbose" ∉ args → verbosity args = 0) := by
  have hmain : verbosity args =
      args.countP (fun a => a == "-v" || a == "--verbose") := by
    unfold verbosity manyFlag
    exact manyFlagFuel_count _ args.length args (Nat.le_refl _)
  refine ⟨hmain, ?_⟩
  intro h1 h2
  rw [hmain]
  rw [List.countP_eq_zero]
  intro a ha
  simp only [Bool.or_eq_true, beq_iff_eq, not_or]
  constructor
  · intro hv; rw [hv] at ha; exact h1 ha
  · intro hv; rw [hv] at ha; exact h2 ha

/-- C10 witness: a command line with no verbosity flag resolves to
verbosity zero, through the theorem. -/
theorem c10_verbosity_count_witness :
    verbosity ["--bin", "foo"] = 0 :=
  (c10_verbosity_count ["--bin", "foo"]).2 (by decide) (by decide)

/-- C9: target-cpu resolution collapses the two mutually exclusive
inputs to one optional string: the native flag alone yields the literal
string native, an explicit CPU name alone yields that name, supplying
both is rejected, and with neither the result is absent. The CPU name is
assumed not to spell the native flag itself. -/
theorem c9_target_cpu_spec (c : String) (hc : (c == "--native") = false) :
    target_cpu [] = some none ∧
    target_cpu ["--native"] = some (some "native") ∧
    target_cpu ["--target-cpu", c] = some (some c) ∧
    target_cpu ["--native", "--target-cpu", c] = none ∧
    target_cpu ["--target-cpu", c, "--native"] = none := by
  refine ⟨rfl, rfl, ?_, ?_, ?_⟩
  · simp [target_cpu, parseTargetCpuAlt, parseNative, parseTargetCpuArg,
      consumeFlag, consumeArg, hc]
  · simp [target_cpu, parseTargetCpuAlt, parseNative, parseTargetCpuArg,
      consumeFlag, consumeArg, hc]
  · simp [target_cpu, parseTargetCpuAlt, parseNative, parseTargetCpuArg,
      consumeFlag, consumeArg, hc]

/-- C9 witness: the theorem applied at the CPU name skylake. -/
theorem c9_target_cpu_spec_witness :
    target_cpu [] = some none ∧
    target_cpu ["--native"] = some (some "native") ∧
    target_cpu ["--target-cpu", "skylake"] = some (some "skylake") ∧
    target_cpu ["--native", "--target-cpu", "skylake"] = none ∧
    target_cpu ["--target-cpu", "skylake", "--native"] = none :=
  c9_target_cpu_spec "skylake" (by decide)

end CargoShowAsm
